import Mathlib

/-!
Verification of the trip-django generation/cost-control subsystem.

The definitions below are a shallow embedding of the Python sources:
  - home/cost_monitor.py   (CostMonitor)
  - home/views.py          (TripStatusAPIView.get)
  - home/services.py       (AIService.generate_optimized_trip_plan)
  - home/optimized_services.py
      (CostOptimizedGoogleMapsService.get_place_details_cached,
       CostOptimizedGoogleMapsService.get_autocomplete_cached,
       CostOptimizedAIService.generate_optimized_trip_plan_cached,
       CostOptimizedAIService._generate_template_plan,
       generate_template_fallback, extract_locations_from_text)

Django's cache is modelled as explicit finite state (string-keyed maps with
optional values: a missing key reads as the default, exactly as cache.get
with a default argument behaves).  Money amounts computed with Python
floats are modelled as exact rationals; the format specifier :.0f is
modelled as rounding to the nearest integer.  External collaborators
(OpenAI, googlemaps) are parameters supplying the outcome of each call.
-/

set_option maxRecDepth 200000

/-- Update a string-keyed optional map at one key. -/
def updMap (f : String → Option Nat) (key : String) (v : Nat) : String → Option Nat :=
  fun k => if k = key then some v else f k

/-- Python str.strip(): drop whitespace from both ends.  (Python strips
Unicode whitespace; the inputs handled by the claims only carry ASCII
whitespace, which Char.isWhitespace covers.) -/
def pyStrip (s : String) : String :=
  String.mk (((s.data.dropWhile Char.isWhitespace).reverse.dropWhile Char.isWhitespace).reverse)

/-! ## CostMonitor (home/cost_monitor.py)

The Django cache keys used by CostMonitor fall into distinct families
(daily counters, hourly buckets, the two cache-telemetry counters); the
state keeps one map per family.  A value of none models an absent key. -/

structure MonitorState where
  daily : String → Option Nat
  hourly : String → Option Nat
  hits : Option Nat
  misses : Option Nat

namespace CostMonitor

/-- Constant self.daily_limit = 100 from CostMonitor.__init__. -/
def daily_limit : Nat := 100

/-- Constant self.cost_per_openai_call = 0.002. -/
def cost_per_openai_call : ℚ := 2 / 1000

/-- Constant self.cost_per_gmaps_call = 0.005. -/
def cost_per_gmaps_call : ℚ := 5 / 1000

/-- Key built by CostMonitor._get_today_key; the current date is an
explicit parameter. -/
def get_today_key (today service : String) : String :=
  "cost_monitor_" ++ service ++ "_" ++ today

/-- Key used by CostMonitor._track_hourly_usage; the current hour stamp is
an explicit parameter. -/
def hourly_key (hourStamp service : String) : String :=
  "hourly_" ++ service ++ "_" ++ hourStamp

/-- CostMonitor._track_hourly_usage: cache.incr on the hourly bucket;
a missing key raises ValueError, caught and initialised to 1. -/
def track_hourly_usage (hourStamp : String) (s : MonitorState) (service : String) :
    MonitorState :=
  let key := hourly_key hourStamp service
  match s.hourly key with
  | some n => { s with hourly := updMap s.hourly key (n + 1) }
  | none => { s with hourly := updMap s.hourly key 1 }

/-- CostMonitor.track_api_call: reads today's counter with default 0, adds
one, stores it back (the midnight TTL is not represented because no claim
crosses a day boundary), then tracks the hourly bucket.  Returns the new
count. -/
def track_api_call (today hourStamp : String) (s : MonitorState) (service : String) :
    Nat × MonitorState :=
  let today_key := get_today_key today service
  let current_count := (s.daily today_key).getD 0 + 1
  let s1 := { s with daily := updMap s.daily today_key current_count }
  let s2 := track_hourly_usage hourStamp s1 service
  (current_count, s2)

/-- CostMonitor.track_cache_hit: cache.incr on the global hit counter;
a missing key is initialised to 1. -/
def track_cache_hit (s : MonitorState) : MonitorState :=
  match s.hits with
  | some n => { s with hits := some (n + 1) }
  | none => { s with hits := some 1 }

/-- CostMonitor.track_cache_miss: cache.incr on the global miss counter;
a missing key is initialised to 1. -/
def track_cache_miss (s : MonitorState) : MonitorState :=
  match s.misses with
  | some n => { s with misses := some (n + 1) }
  | none => { s with misses := some 1 }

/-- Result dictionary of CostMonitor.get_cache_stats. -/
structure CacheStats where
  hits : Nat
  misses : Nat
  hit_rate : ℚ
  deriving DecidableEq

/-- CostMonitor.get_cache_stats: hits and misses read with default 0;
hit_rate = hits / total * 100 when total > 0, else 0.  State-passing style
so that read-only-ness is a provable statement, not a typing artifact. -/
def get_cache_stats (s : MonitorState) : CacheStats × MonitorState :=
  let hits := s.hits.getD 0
  let misses := s.misses.getD 0
  let total := hits + misses
  let hit_rate : ℚ := if 0 < total then (hits : ℚ) / (total : ℚ) * 100 else 0
  (⟨hits, misses, hit_rate⟩, s)

/-- CostMonitor.should_allow_api_call: reads today's counter with default
0 and denies when it has reached the daily limit. -/
def should_allow_api_call (today : String) (s : MonitorState) (service : String) :
    Bool × MonitorState :=
  let current_count := (s.daily (get_today_key today service)).getD 0
  if daily_limit ≤ current_count then (false, s) else (true, s)

end CostMonitor

/-! ## TripStatusAPIView.get (home/views.py lines 425-456) -/

/-- Database snapshot seen by the status endpoint: which trip-request ids
exist, and the content of the generated plan attached to a trip request
(none models GeneratedPlan.DoesNotExist). -/
structure StatusDb where
  trips : Nat → Bool
  plans : Nat → Option String

/-- JSON payloads returned by TripStatusAPIView.get. -/
inductive StatusResponse where
  | completed
  | generating
  | error (message : String)
  deriving DecidableEq

/-- TripStatusAPIView.get: resolves the trip request (unknown id yields
the error payload), then inspects the generated plan.  The plan counts as
done when the content is truthy and its stripped length exceeds 50;
otherwise, and when no plan row exists, the view reports generating (and
spawns a background generation thread, a side effect outside this
claim).  Python str.strip is modelled by pyStrip and len by
String.length (both count Unicode code points). -/
def tripStatusGet (db : StatusDb) (trip_id : Nat) : StatusResponse :=
  if db.trips trip_id then
    match db.plans trip_id with
    | some content =>
        if content ≠ "" ∧ 50 < (pyStrip content).length then
          StatusResponse.completed
        else
          StatusResponse.generating
    | none => StatusResponse.generating
  else
    StatusResponse.error "Trip request not found"

/-- Helper: a string whose stripped length is positive is not empty. -/
theorem trim_length_pos_ne_empty (c : String) (h : 50 < (pyStrip c).length) : c ≠ "" := by
  intro hc
  subst hc
  exact absurd h (by decide)

/-- C1: the status query returns completed iff the trip exists and a
persisted plan exists whose trimmed content length is strictly greater
than 50; it returns an error payload iff the trip id cannot be resolved;
in every other case (plan missing or incomplete) it returns generating. -/
theorem C1_trip_status_completed_iff (db : StatusDb) (trip_id : Nat) :
    (tripStatusGet db trip_id = StatusResponse.completed ↔
      db.trips trip_id = true ∧
        ∃ c, db.plans trip_id = some c ∧ 50 < (pyStrip c).length) ∧
    ((∃ m, tripStatusGet db trip_id = StatusResponse.error m) ↔
      db.trips trip_id = false) ∧
    (tripStatusGet db trip_id = StatusResponse.generating ↔
      db.trips trip_id = true ∧
        ∀ c, db.plans trip_id = some c → (pyStrip c).length ≤ 50) := by
  unfold tripStatusGet
  rcases htrip : db.trips trip_id with _ | _
  · simp
  · rcases hplan : db.plans trip_id with _ | c
    · simp
    · by_cases hlen : 50 < (pyStrip c).length
      · have hne : c ≠ "" := trim_length_pos_ne_empty c hlen
        simp [hne, hlen]
      · simp only [not_lt] at hlen
        have : ¬ (c ≠ "" ∧ 50 < (pyStrip c).length) := by
          intro h
          exact absurd h.2 (by omega)
        simp [this]
        omega

/-- C3: should_allow_api_call returns true iff today's counter for the
service is strictly below the daily limit of 100. -/
theorem C3_should_allow_iff_below_limit (today : String) (s : MonitorState)
    (service : String) :
    (CostMonitor.should_allow_api_call today s service).1 = true ↔
      (s.daily (CostMonitor.get_today_key today service)).getD 0 < 100 := by
  by_cases h : CostMonitor.daily_limit ≤ (s.daily (CostMonitor.get_today_key today service)).getD 0
  · have h' := h
    simp only [CostMonitor.daily_limit] at h'
    simp [CostMonitor.should_allow_api_call, h]
    omega
  · have h' := h
    simp only [CostMonitor.daily_limit] at h'
    simp [CostMonitor.should_allow_api_call, h]
    omega

/-- Concrete monitor state with one recorded hit and one recorded miss. -/
def oneHitOneMissState : MonitorState :=
  { daily := fun _ => none
    hourly := fun _ => none
    hits := some 1
    misses := some 1 }

/-- C9 counterexample: with hits = 1 and misses = 1 the reported hit_rate
is 50, not the ratio hits / (hits + misses) = 1/2: the code multiplies the
ratio by 100. -/
theorem C9_hit_rate_not_ratio :
    (CostMonitor.get_cache_stats oneHitOneMissState).1.hit_rate = 50 ∧
    ((1 : ℚ) / ((1 : ℚ) + (1 : ℚ)) = 1 / 2) ∧
    (CostMonitor.get_cache_stats oneHitOneMissState).1.hit_rate ≠ 1 / 2 := by
  refine ⟨?_, by norm_num, ?_⟩
  · norm_num [CostMonitor.get_cache_stats, oneHitOneMissState]
  · norm_num [CostMonitor.get_cache_stats, oneHitOneMissState]

/-- C9 amended: the snapshot reports hit_rate equal to one hundred times
the ratio hits / (hits + misses) of the stored counters (a percentage),
and 0 when both counters are zero. -/
theorem C9_hit_rate_is_percentage (s : MonitorState) :
    (CostMonitor.get_cache_stats s).1.hit_rate =
      if s.hits.getD 0 + s.misses.getD 0 = 0 then 0
      else ((s.hits.getD 0 : ℚ) / ((s.hits.getD 0 : ℚ) + (s.misses.getD 0 : ℚ))) * 100 := by
  simp only [CostMonitor.get_cache_stats]
  by_cases h : s.hits.getD 0 + s.misses.getD 0 = 0
  · simp [h]
  · have hpos : 0 < s.hits.getD 0 + s.misses.getD 0 := Nat.pos_of_ne_zero h
    rw [if_pos hpos, if_neg h]
    push_cast
    ring

/-- C10: admission checking is read-only: should_allow_api_call returns
the monitor state unchanged (daily counters, hourly buckets, and hit/miss
counters all intact), and the cache-stats snapshot is likewise read-only;
of the embedded CostMonitor operations only track_api_call,
track_hourly_usage, track_cache_hit and track_cache_miss produce a
changed state. -/
theorem C10_should_allow_read_only (today : String) (s : MonitorState)
    (service : String) :
    (CostMonitor.should_allow_api_call today s service).2 = s ∧
    (CostMonitor.should_allow_api_call today s service).2.daily = s.daily ∧
    (CostMonitor.should_allow_api_call today s service).2.hourly = s.hourly ∧
    (CostMonitor.should_allow_api_call today s service).2.hits = s.hits ∧
    (CostMonitor.should_allow_api_call today s service).2.misses = s.misses ∧
    (CostMonitor.get_cache_stats s).2 = s := by
  unfold CostMonitor.should_allow_api_call CostMonitor.get_cache_stats
  by_cases h : CostMonitor.daily_limit ≤ (s.daily (CostMonitor.get_today_key today service)).getD 0 <;>
    simp [h]

/-! ## Generic cache with TTL (django.core.cache modelled explicitly)

A cache maps keys to a stored value together with its absolute expiry
time; cache.get returns none for an absent or expired key, cache.set
stores the value with expiry now + ttl. -/

/-- Read from a TTL cache. -/
def cacheGet {α : Type} (c : String → Option (α × Nat)) (now : Nat) (k : String) :
    Option α :=
  match c k with
  | some (v, expiry) => if now < expiry then some v else none
  | none => none

/-- Write to a TTL cache. -/
def cacheSet {α : Type} (c : String → Option (α × Nat)) (now : Nat) (k : String)
    (v : α) (ttl : Nat) : String → Option (α × Nat) :=
  fun k' => if k' = k then some (v, now + ttl) else c k'

/-! ## AIService.generate_optimized_trip_plan (home/services.py 304-338)

The OpenAI collaborator is a function from the attempt index to the
outcome of that attempt: ok with the raw completion text, or error with
the exception message str(e). -/

/-- Python str.lower(), ASCII case folding (the error messages inspected
by the classifier are ASCII). -/
def pyLower (s : String) : String :=
  String.mk (s.data.map Char.toLower)

/-- Membership of one character list inside another at any position. -/
def containsAux (needle : List Char) : List Char → Bool
  | [] => needle.isEmpty
  | c :: rest => needle.isPrefixOf (c :: rest) || containsAux needle rest

/-- Python substring membership test (needle in hay). -/
def strContains (hay needle : String) : Bool :=
  containsAux needle.data hay.data

/-- Failure classification used on the final retry attempt. -/
inductive ErrorKind where
  | timeout
  | connectionError
  | quotaOrRateLimit
  | unknown
  deriving DecidableEq

/-- Error classification from the last-attempt branch of
AIService.generate_optimized_trip_plan: substring inspection of the
lower-cased exception message, in source order. -/
def classify_error (error_message : String) : ErrorKind :=
  let low := pyLower error_message
  if strContains low "timeout" || strContains low "timed out" then ErrorKind.timeout
  else if strContains low "connection" then ErrorKind.connectionError
  else if strContains low "rate_limit" || strContains low "quota" ||
      strContains low "insufficient_quota" then ErrorKind.quotaOrRateLimit
  else ErrorKind.unknown

/-- Message of the exception re-raised for each classification. -/
def classified_message : ErrorKind → String → String
  | ErrorKind.timeout, _ => "Request timed out."
  | ErrorKind.connectionError, _ => "Connection error."
  | ErrorKind.quotaOrRateLimit, _ => "API quota exceeded."
  | ErrorKind.unknown, e => "Error generating trip plan: " ++ e

/-- Logger calls made by the retry loop: the per-attempt warning with the
raw message, and the log lines that surface a classification. -/
inductive LogEvent where
  | warnAttempt (attempt : Nat) (msg : String)
  | classified (kind : ErrorKind)
  deriving DecidableEq

deriving instance DecidableEq for Except

/-- Observable outcome of one run of the retry loop: the value returned
(ok) or the exception raised (error), the sleeps performed between
attempts, the number of OpenAI calls made, and the log trace. -/
structure RetryRun where
  result : Except String String
  sleeps : List Nat
  calls : Nat
  logs : List LogEvent
  deriving DecidableEq

/-- Constant max_retries = 3. -/
def max_retries : Nat := 3

/-- Body of the for-attempt-in-range(max_retries) loop of
AIService.generate_optimized_trip_plan: success returns the stripped
completion; a failure on the last attempt is classified and re-raised;
an earlier failure sleeps 2 ^ attempt seconds and continues. -/
def attemptLoop (llm : Nat → Except String String) : List Nat → RetryRun
  | [] => { result := Except.error "loop fell through", sleeps := [], calls := 0, logs := [] }
  | attempt :: rest =>
    match llm attempt with
    | Except.ok text =>
        { result := Except.ok (pyStrip text), sleeps := [], calls := 1, logs := [] }
    | Except.error e =>
        let warnLog := LogEvent.warnAttempt (attempt + 1) e
        if attempt = max_retries - 1 then
          let kind := classify_error e
          { result := Except.error (classified_message kind e), sleeps := [], calls := 1,
            logs := [warnLog, LogEvent.classified kind] }
        else
          let r := attemptLoop llm rest
          { result := r.result, sleeps := 2 ^ attempt :: r.sleeps, calls := r.calls + 1,
            logs := warnLog :: r.logs }

/-- AIService.generate_optimized_trip_plan, as a function of the
per-attempt OpenAI outcomes (prompt construction does not influence
control flow and is omitted). -/
def generate_optimized_trip_plan (llm : Nat → Except String String) : RetryRun :=
  attemptLoop llm (List.range max_retries)

/-- True on the log entries that surface a classification. -/
def LogEvent.isClassified : LogEvent → Bool
  | LogEvent.classified _ => true
  | _ => false

/-! ## CostOptimizedAIService (home/optimized_services.py 174-290) -/

/-- Fields of a TripPlanRequest row used by the generation services
(home/models.py 173-184).  budget is a Decimal, modelled exactly as a
rational; duration and number_of_travelers are integers. -/
structure TripRequest where
  destination : String
  destination_country : Option String
  duration : Nat
  budget : ℚ
  number_of_travelers : Nat
  interests : Option String
  transportation_preferences : Option String
  experience_style : Option String

/-- CostOptimizedAIService._get_cache_key: md5 over
operation ++ ":" ++ ":".join(args) with an "ai_" namespace.  The md5 hash
is modelled as the identity on the hashed text, which preserves exactly
the property the caller relies on: equal inputs give equal keys. -/
def ai_cache_key (operation : String) (args : List String) : String :=
  "ai_" ++ operation ++ ":" ++ String.intercalate ":" args

/-- Cache key data for a trip plan, from
generate_optimized_trip_plan_cached: the eight normalized TripSpec
fields.  Numbers are rendered with toString, standing in for Python's
str(). -/
def trip_plan_cache_key (tr : TripRequest) : String :=
  ai_cache_key "trip_plan"
    [tr.destination,
     tr.destination_country.getD "",
     toString tr.duration,
     toString tr.budget,
     toString tr.number_of_travelers,
     tr.interests.getD "",
     tr.transportation_preferences.getD "",
     tr.experience_style.getD ""]

/-- Python format specifier :.0f applied to an exactly-represented
nonnegative amount: round to the nearest integer and print it.
(Python rounds the underlying double half-to-even; the claims only state
the printed number is the exact value up to rounding tolerance.) -/
def fmtUSD0 (q : ℚ) : String := toString (round q)

/-- Newline join, modelling the explicit line breaks of a Python
multi-line f-string or of successive plan += "...\n" appends. -/
def joinLines : List String → String
  | [] => ""
  | [l] => l
  | l :: ls => l ++ "\n" ++ joinLines ls

/-- Lines of the f-string returned by
CostOptimizedAIService._generate_template_plan: a fixed two-day skeleton
with amounts derived from budget / duration / number_of_travelers. -/
def generate_template_plan_lines (tr : TripRequest) : List String :=
  let daily_budget : ℚ := tr.budget / (tr.duration : ℚ) / (tr.number_of_travelers : ℚ)
  ["🌟 " ++ tr.destination ++ " Travel Plan",
   "",
   "🗓️ Day 1: Arrival & Exploration",
   "🏨 Check-in: Mid-range hotel ($" ++ fmtUSD0 (daily_budget * (4 / 10)) ++ "/person)",
   "🍽️ Lunch: Local restaurant ($" ++ fmtUSD0 (daily_budget * (15 / 100)) ++ "/person)",
   "📍 Main attraction visit",
   "🍽️ Dinner: Traditional cuisine ($" ++ fmtUSD0 (daily_budget * (2 / 10)) ++ "/person)",
   "💰 Daily total: $" ++ fmtUSD0 daily_budget ++ " per person",
   "",
   "🗓️ Day 2: Cultural Immersion",
   "🏛️ Museum or cultural site",
   "🍽️ Local food tour",
   "🛍️ Shopping district",
   "💰 Daily total: $" ++ fmtUSD0 daily_budget ++ " per person",
   "",
   "💡 Budget Tips:",
   "- Use public transportation",
   "- Try street food",
   "- Visit free attractions",
   "- Book in advance for discounts"]

/-- CostOptimizedAIService._generate_template_plan as one string. -/
def generate_template_plan (tr : TripRequest) : String :=
  joinLines (generate_template_plan_lines tr)

/-- Constant self.cache_timeout = 86400 * 3 of CostOptimizedAIService. -/
def ai_cache_timeout : Nat := 86400 * 3

/-- CostOptimizedAIService.generate_optimized_trip_plan_cached: cache hit
returns the cached plan and tracks a hit; a miss tracks a miss and makes
one OpenAI call (its outcome is the llm parameter); on success the
stripped completion is cached for three days and returned; any exception
is absorbed and the template plan is returned instead.  The function
always returns a plan string — no error propagates to the caller. -/
def generate_optimized_trip_plan_cached (llm : Except String String) (tr : TripRequest)
    (mon : MonitorState) (aiCache : String → Option (String × Nat)) (now : Nat) :
    String × MonitorState × (String → Option (String × Nat)) :=
  let cache_key := trip_plan_cache_key tr
  match cacheGet aiCache now cache_key with
  | some cached => (cached, CostMonitor.track_cache_hit mon, aiCache)
  | none =>
    let mon1 := CostMonitor.track_cache_miss mon
    match llm with
    | Except.ok content =>
        let result := pyStrip content
        (result, mon1, cacheSet aiCache now cache_key result ai_cache_timeout)
    | Except.error _ => (generate_template_plan tr, mon1, aiCache)

/-- OpenAI trace in which every attempt fails with a quota error. -/
def quotaFailLLM : Nat → Except String String :=
  fun _ => Except.error "Error code 429: insufficient_quota"

/-- C2 counterexample: AIService.generate_optimized_trip_plan — one of
the two itinerary-generation entry points named by the claim — raises a
classified exception to its caller when every attempt fails on quota: it
does not return fallback text itself. -/
theorem C2_services_entry_point_raises_on_quota :
    (generate_optimized_trip_plan quotaFailLLM).result =
      Except.error "API quota exceeded." := by
  decide

/-- C2 amended: the cached entry point
(CostOptimizedAIService.generate_optimized_trip_plan_cached) never raises
on LLM failures: on any failure with a cold cache it returns the template
fallback; in general it returns the cached plan, the stripped LLM result,
or the template fallback, and the template fallback is non-empty.  (The
other entry point, AIService.generate_optimized_trip_plan, instead
re-raises a classified exception after exhausting its retries, which its
background caller absorbs.) -/
theorem C2_cached_generation_total (llm : Except String String) (tr : TripRequest)
    (mon : MonitorState) (aiCache : String → Option (String × Nat)) (now : Nat) :
    (∀ e, llm = Except.error e →
      cacheGet aiCache now (trip_plan_cache_key tr) = none →
      (generate_optimized_trip_plan_cached llm tr mon aiCache now).1 =
        generate_template_plan tr) ∧
    ((∃ v, cacheGet aiCache now (trip_plan_cache_key tr) = some v ∧
        (generate_optimized_trip_plan_cached llm tr mon aiCache now).1 = v) ∨
     (∃ t, llm = Except.ok t ∧
        (generate_optimized_trip_plan_cached llm tr mon aiCache now).1 = pyStrip t) ∨
     (generate_optimized_trip_plan_cached llm tr mon aiCache now).1 =
        generate_template_plan tr) ∧
    0 < (generate_template_plan tr).length := by
  refine ⟨?_, ?_, ?_⟩
  · intro e he hcache
    simp [generate_optimized_trip_plan_cached, hcache, he]
  · rcases hcache : cacheGet aiCache now (trip_plan_cache_key tr) with _ | v
    · rcases hllm : llm with e | t
      · right; right
        simp [generate_optimized_trip_plan_cached, hcache]
      · right; left
        exact ⟨t, rfl, by simp [generate_optimized_trip_plan_cached, hcache]⟩
    · left
      exact ⟨v, rfl, by simp [generate_optimized_trip_plan_cached, hcache]⟩
  · show 0 < (joinLines (generate_template_plan_lines tr)).length
    simp only [generate_template_plan_lines, joinLines, String.length_append]
    have h1 : ("🌟 " : String).length = 2 := rfl
    have h2 : ("\n" : String).length = 1 := rfl
    omega

/-- Concrete trip request used by closed witnesses: Paris, 3 days,
budget 900, 2 travelers. -/
def parisTrip : TripRequest :=
  { destination := "Paris"
    destination_country := some "France"
    duration := 3
    budget := 900
    number_of_travelers := 2
    interests := none
    transportation_preferences := none
    experience_style := none }

/-- Monitor state with no recorded usage. -/
def emptyMonitor : MonitorState :=
  { daily := fun _ => none, hourly := fun _ => none, hits := none, misses := none }

/-- Empty AI plan cache. -/
def emptyAiCache : String → Option (String × Nat) := fun _ => none

/-- C2 witness: with a cold cache and a quota failure, the cached entry
point returns the template fallback, which is non-empty. -/
theorem C2_cached_generation_total_witness :
    (generate_optimized_trip_plan_cached (Except.error "insufficient_quota") parisTrip
        emptyMonitor emptyAiCache 0).1 = generate_template_plan parisTrip ∧
    0 < (generate_template_plan parisTrip).length := by
  have h := C2_cached_generation_total (Except.error "insufficient_quota") parisTrip
    emptyMonitor emptyAiCache 0
  exact ⟨h.1 "insufficient_quota" rfl rfl, h.2.2⟩

/-- OpenAI trace whose first attempt fails and whose second succeeds. -/
def failThenOkLLM : Nat → Except String String :=
  fun n => if n = 0 then Except.error "Connection aborted by peer" else Except.ok "A fine plan"

/-- C7 counterexample: a failure on a non-final attempt is logged with
its raw message but never classified — the retry loop classifies only the
final attempt's failure, so it is not the case that each failure is
classified and surfaced in the logs. -/
theorem C7_intermediate_failure_not_classified :
    (generate_optimized_trip_plan failThenOkLLM).calls = 2 ∧
    (generate_optimized_trip_plan failThenOkLLM).logs =
      [LogEvent.warnAttempt 1 "Connection aborted by peer"] ∧
    (generate_optimized_trip_plan failThenOkLLM).logs.filter LogEvent.isClassified = [] := by
  decide

/-- C7 amended: the generation call is retried up to 3 attempts with
exponential backoff of 2 ^ attempt seconds between consecutive attempts;
when all three attempts fail, the final failure is classified into
{Timeout, ConnectionError, QuotaOrRateLimit, Unknown} by inspecting the
error message, the classification is surfaced in the logs (and in the
classified exception raised to the background caller), while non-final
failures are only logged raw; the classification never reaches the
user-facing status payloads, whose error message is fixed. -/
theorem C7_retry_backoff_and_final_classification (llm : Nat → Except String String) :
    (generate_optimized_trip_plan llm).calls ≤ 3 ∧
    (generate_optimized_trip_plan llm).sleeps =
      (List.range ((generate_optimized_trip_plan llm).calls - 1)).map (fun a => 2 ^ a) ∧
    (∀ e0 e1 e2, llm 0 = Except.error e0 → llm 1 = Except.error e1 →
      llm 2 = Except.error e2 →
      (generate_optimized_trip_plan llm).result =
          Except.error (classified_message (classify_error e2) e2) ∧
      LogEvent.classified (classify_error e2) ∈ (generate_optimized_trip_plan llm).logs ∧
      (generate_optimized_trip_plan llm).calls = 3) ∧
    (∀ t, llm 0 = Except.ok t →
      (generate_optimized_trip_plan llm).result = Except.ok (pyStrip t) ∧
      (generate_optimized_trip_plan llm).logs.filter LogEvent.isClassified = []) ∧
    (∀ db trip_id m, tripStatusGet db trip_id = StatusResponse.error m →
      m = "Trip request not found") := by
  have hrange : List.range max_retries = [0, 1, 2] := rfl
  refine ⟨?_, ?_, ?_, ?_, ?_⟩
  · rcases h0 : llm 0 with e0 | t0 <;>
      rcases h1 : llm 1 with e1 | t1 <;>
        rcases h2 : llm 2 with e2 | t2 <;>
          simp [generate_optimized_trip_plan, hrange, attemptLoop, h0, h1, h2, max_retries]
  · rcases h0 : llm 0 with e0 | t0 <;>
      rcases h1 : llm 1 with e1 | t1 <;>
        rcases h2 : llm 2 with e2 | t2 <;>
          simp [generate_optimized_trip_plan, hrange, attemptLoop, h0, h1, h2, max_retries,
            List.range_succ]
  · intro e0 e1 e2 h0 h1 h2
    simp [generate_optimized_trip_plan, hrange, attemptLoop, h0, h1, h2, max_retries]
  · intro t h0
    simp [generate_optimized_trip_plan, hrange, attemptLoop, h0, max_retries]
  · intro db trip_id m hm
    unfold tripStatusGet at hm
    rcases htrip : db.trips trip_id with _ | _ <;> rw [htrip] at hm
    · simp at hm
      exact hm.symm
    · rcases hplan : db.plans trip_id with _ | c <;> rw [hplan] at hm
      · simp at hm
      · by_cases hlen : c ≠ "" ∧ 50 < (pyStrip c).length <;> simp [hlen] at hm

/-- OpenAI trace in which every attempt times out. -/
def allTimeoutLLM : Nat → Except String String :=
  fun _ => Except.error "Request timeout while awaiting completion"

/-- C7 witness: with three timeouts the run makes 3 calls, sleeps 1 then
2 seconds, raises the classified timeout message, and the timeout
classification appears in the logs. -/
theorem C7_retry_backoff_witness :
    (generate_optimized_trip_plan allTimeoutLLM).result = Except.error "Request timed out." ∧
    (generate_optimized_trip_plan allTimeoutLLM).sleeps = [1, 2] ∧
    LogEvent.classified ErrorKind.timeout ∈ (generate_optimized_trip_plan allTimeoutLLM).logs := by
  have h := C7_retry_backoff_and_final_classification allTimeoutLLM
  obtain ⟨hcalls, hsleeps, hfail, hok, hfixed⟩ := h
  obtain ⟨hres, hlog, hcalls3⟩ := hfail _ _ _ rfl rfl rfl
  have hclass : classify_error "Request timeout while awaiting completion" =
      ErrorKind.timeout := by decide
  refine ⟨?_, ?_, ?_⟩
  · rw [hres, hclass]
    rfl
  · rw [hsleeps, hcalls3]
    rfl
  · rw [← hclass]
    exact hlog

/-! ## CostOptimizedGoogleMapsService (home/optimized_services.py 26-172)

The googlemaps client is a parameter: a function from the query to the
outcome of gmaps.places (first result, empty results, or exception) and
from a place_id to the photos field of gmaps.place.  Each run returns the
value, the updated monitor and cache states, and the trace of telemetry
and external-call events, in execution order. -/

/-- Python truthiness of an optional string (None and "" are falsy). -/
def pyTruthyStr : Option String → Bool
  | some s => s ≠ ""
  | none => false

/-- First element of places_result['results'] from gmaps.places. -/
structure PlaceResult where
  place_id : Option String
  name : Option String
  formatted_address : Option String
  rating : Option ℚ
  types : List String
  deriving DecidableEq

/-- One entry of the photos field of gmaps.place(...)['result']. -/
structure PhotoData where
  photo_reference : Option String
  width : Option Nat
  height : Option Nat
  deriving DecidableEq

/-- Photo dictionary built into place_details['photos']. -/
structure Photo where
  url : String
  width : Nat
  height : Nat
  deriving DecidableEq

/-- Dictionary built by get_place_details_cached from the search result. -/
structure PlaceDetails where
  place_id : Option String
  name : Option String
  formatted_address : Option String
  rating : Option ℚ
  types : List String
  photos : List Photo
  deriving DecidableEq

/-- Outcome of one gmaps.places text search. -/
inductive PlacesOutcome where
  | ok (place : PlaceResult)
  | noResults
  | raise (msg : String)
  deriving DecidableEq

/-- One prediction of gmaps.places_autocomplete. -/
structure Prediction where
  place_id : Option String
  description : Option String
  main_text : String
  secondary_text : String
  deriving DecidableEq

/-- Suggestion dictionary built by get_autocomplete_cached. -/
structure Suggestion where
  place_id : Option String
  description : Option String
  main_text : String
  secondary_text : String
  deriving DecidableEq

/-- External googlemaps collaborator. -/
structure GmapsEnv where
  api_key : String
  places : String → PlacesOutcome
  placePhotos : String → Option (List PhotoData)
  autocomplete : String → Except String (List Prediction)

/-- Cached values of the two operations of the service; keys are
disjoint because the operation name is part of the key. -/
structure GmapsCache where
  placeDetails : String → Option (Option PlaceDetails × Nat)
  autocomplete : String → Option (List Suggestion × Nat)

/-- Kinds of external (billable) API calls the service can make. -/
inductive ApiKind where
  | placesSearch
  | placeDetailsFetch
  | autocompleteCall
  deriving DecidableEq

/-- Observable events of one cached lookup, in execution order. -/
inductive GEvent where
  | trackHit
  | trackMiss
  | checkQuota (allowed : Bool)
  | apiCall (kind : ApiKind)
  deriving DecidableEq

/-- True exactly on quota-check events. -/
def GEvent.isCheckQuota : GEvent → Bool
  | GEvent.checkQuota _ => true
  | _ => false

/-- CostOptimizedGoogleMapsService._get_cache_key; as with the AI keys,
the md5 digest is modelled as the identity on the hashed text. -/
def gmaps_cache_key (operation : String) (args : List String) : String :=
  "gmaps_" ++ operation ++ ":" ++ String.intercalate ":" args

/-- CostOptimizedGoogleMapsService._is_important_location: keyword
membership in the lower-cased location name. -/
def is_important_location (location_name : String) : Bool :=
  ["museum", "palace", "temple", "church", "cathedral", "tower",
   "bridge", "park", "square", "market", "beach", "gallery"].any
    (fun keyword => strContains (pyLower location_name) keyword)

/-- Result record of one get_place_details_cached run. -/
structure PlaceLookupRun where
  result : Option PlaceDetails
  monitor : MonitorState
  cache : GmapsCache
  events : List GEvent

/-- Photos list built for an important location from the second API
call: only the first photo is kept, and only when it has a reference. -/
def photosFromFetch (api_key : String) : Option (List PhotoData) → List Photo
  | some (photo :: _) =>
      match photo.photo_reference with
      | some photo_reference =>
          [{ url := "https://maps.googleapis.com/maps/api/place/photo?maxwidth=400&photo_reference="
                ++ photo_reference ++ "&key=" ++ api_key
             width := photo.width.getD 400
             height := photo.height.getD 300 }]
      | none => []
  | _ => []

/-- CostOptimizedGoogleMapsService.get_place_details_cached.  A cached
truthy value is returned after tracking a hit.  Otherwise the quota guard
is consulted: denial returns None with no further telemetry; approval
tracks a miss and performs the text search.  A first result is packaged
(with a second place-details API call for photos when the location is
important and a place_id exists) and cached for 7 days; empty results or
an exception cache None for 1 hour and return None.  Note the stored
negative value None is indistinguishable from a cache miss on the next
read (the if cached_result: truthiness test). -/
def get_place_details_cached (today : String) (env : GmapsEnv) (mon : MonitorState)
    (gc : GmapsCache) (now : Nat) (location_name : String)
    (destination_city : Option String) : PlaceLookupRun :=
  let cache_key := gmaps_cache_key "place_details"
    [location_name, if pyTruthyStr destination_city then destination_city.getD "" else ""]
  let cached_result : Option PlaceDetails :=
    match cacheGet gc.placeDetails now cache_key with
    | some v => v
    | none => none
  match cached_result with
  | some pd =>
      { result := some pd, monitor := CostMonitor.track_cache_hit mon, cache := gc,
        events := [GEvent.trackHit] }
  | none =>
      let (allowed, mon0) := CostMonitor.should_allow_api_call today mon "google_maps"
      if allowed then
        let mon1 := CostMonitor.track_cache_miss mon0
        let query := location_name ++
          (if pyTruthyStr destination_city then ", " ++ destination_city.getD "" else "")
        match env.places query with
        | PlacesOutcome.ok place =>
            let fetchPhotos := place.place_id.isSome && is_important_location location_name
            let photos :=
              match place.place_id with
              | some pid =>
                  if is_important_location location_name then
                    photosFromFetch env.api_key (env.placePhotos pid)
                  else []
              | none => []
            let place_details : PlaceDetails :=
              { place_id := place.place_id, name := place.name,
                formatted_address := place.formatted_address, rating := place.rating,
                types := place.types, photos := photos }
            let pdCache := cacheSet gc.placeDetails now cache_key (some place_details) (86400 * 7)
            { result := some place_details
              monitor := mon1
              cache := { gc with placeDetails := pdCache }
              events := [GEvent.checkQuota true, GEvent.trackMiss,
                GEvent.apiCall ApiKind.placesSearch] ++
                (if fetchPhotos then [GEvent.apiCall ApiKind.placeDetailsFetch] else []) }
        | PlacesOutcome.noResults =>
            let negCache := cacheSet gc.placeDetails now cache_key none 3600
            { result := none
              monitor := mon1
              cache := { gc with placeDetails := negCache }
              events := [GEvent.checkQuota true, GEvent.trackMiss,
                GEvent.apiCall ApiKind.placesSearch] }
        | PlacesOutcome.raise _ =>
            let negCache := cacheSet gc.placeDetails now cache_key none 3600
            { result := none
              monitor := mon1
              cache := { gc with placeDetails := negCache }
              events := [GEvent.checkQuota true, GEvent.trackMiss,
                GEvent.apiCall ApiKind.placesSearch] }
      else
        { result := none, monitor := mon0, cache := gc,
          events := [GEvent.checkQuota false] }

/-- Result record of one get_autocomplete_cached run. -/
structure AutocompleteRun where
  result : List Suggestion
  monitor : MonitorState
  cache : GmapsCache
  events : List GEvent

/-- CostOptimizedGoogleMapsService.get_autocomplete_cached.  A cached
truthy (non-empty) list is returned after tracking a hit; otherwise a
miss is tracked and the autocomplete API is called directly — without any
quota check.  Success maps the first limit predictions to suggestion
dictionaries and caches them for 24 hours; an exception returns []. -/
def get_autocomplete_cached (env : GmapsEnv) (mon : MonitorState) (gc : GmapsCache)
    (now : Nat) (query : String) (limit : Nat) : AutocompleteRun :=
  let cache_key := gmaps_cache_key "autocomplete" [query, toString limit]
  match cacheGet gc.autocomplete now cache_key with
  | some (s :: rest) =>
      { result := s :: rest, monitor := CostMonitor.track_cache_hit mon, cache := gc,
        events := [GEvent.trackHit] }
  | _ =>
      let mon1 := CostMonitor.track_cache_miss mon
      match env.autocomplete query with
      | Except.ok predictions =>
          let suggestions := (predictions.take limit).map (fun p =>
            { place_id := p.place_id, description := p.description,
              main_text := p.main_text, secondary_text := p.secondary_text : Suggestion })
          let acCache := cacheSet gc.autocomplete now cache_key suggestions 86400
          { result := suggestions
            monitor := mon1
            cache := { gc with autocomplete := acCache }
            events := [GEvent.trackMiss, GEvent.apiCall ApiKind.autocompleteCall] }
      | Except.error _ =>
          { result := [], monitor := mon1, cache := gc,
            events := [GEvent.trackMiss, GEvent.apiCall ApiKind.autocompleteCall] }

/-- Empty googlemaps cache. -/
def emptyGmapsCache : GmapsCache :=
  { placeDetails := fun _ => none, autocomplete := fun _ => none }

/-- Collaborator for closed runs: searches find nothing, autocomplete
returns one prediction. -/
def demoGmapsEnv : GmapsEnv :=
  { api_key := "KEY"
    places := fun _ => PlacesOutcome.noResults
    placePhotos := fun _ => none
    autocomplete := fun _ => Except.ok
      [{ place_id := some "p1", description := some "Paris, France",
         main_text := "Paris", secondary_text := "France" }] }

/-- C4 counterexample: an autocomplete cache miss goes straight to the
external API — the event trace contains the API call, a tracked miss,
and no quota check at all, so it is not the case that every cache miss
that triggers an external call first passes ShouldAllow. -/
theorem C4_autocomplete_miss_skips_quota :
    (get_autocomplete_cached demoGmapsEnv emptyMonitor emptyGmapsCache 0 "Par" 5).events =
      [GEvent.trackMiss, GEvent.apiCall ApiKind.autocompleteCall] ∧
    ((get_autocomplete_cached demoGmapsEnv emptyMonitor emptyGmapsCache 0 "Par" 5).events.filter
      GEvent.isCheckQuota) = [] := by
  decide

/-- C4 amended: the coupling holds only partially.  Place-details
lookups: a hit reports a hit; a miss first consults ShouldAllow, and the
external call(s) happen only after a positive quota check together with a
tracked miss — but a denied miss reports neither hit nor miss.
Autocomplete lookups always report a hit or a miss, but a miss calls the
external API without consulting the quota guard.  The disjunctions below
enumerate every possible event trace of the two operations, in execution
order. -/
theorem C4_quota_and_telemetry_coupling :
    (∀ today env mon gc now loc city,
      (get_place_details_cached today env mon gc now loc city).events = [GEvent.trackHit] ∨
      (get_place_details_cached today env mon gc now loc city).events =
        [GEvent.checkQuota false] ∨
      (get_place_details_cached today env mon gc now loc city).events =
        [GEvent.checkQuota true, GEvent.trackMiss, GEvent.apiCall ApiKind.placesSearch] ∨
      (get_place_details_cached today env mon gc now loc city).events =
        [GEvent.checkQuota true, GEvent.trackMiss, GEvent.apiCall ApiKind.placesSearch,
         GEvent.apiCall ApiKind.placeDetailsFetch]) ∧
    (∀ env mon gc now query limit,
      (get_autocomplete_cached env mon gc now query limit).events = [GEvent.trackHit] ∨
      (get_autocomplete_cached env mon gc now query limit).events =
        [GEvent.trackMiss, GEvent.apiCall ApiKind.autocompleteCall]) := by
  constructor
  · intro today env mon gc now loc city
    unfold get_place_details_cached
    rcases hA : CostMonitor.should_allow_api_call today mon "google_maps" with ⟨a, m0⟩
    rcases hget : cacheGet gc.placeDetails now (gmaps_cache_key "place_details"
      [loc, if pyTruthyStr city then city.getD "" else ""]) with _ | v
    · rcases a with _ | _
      · simp [hget, hA]
      · rcases hp : env.places (loc ++ (if pyTruthyStr city then ", " ++ city.getD "" else ""))
          with place | _ | msg
        · by_cases hf : place.place_id.isSome && is_important_location loc
          · simp [hget, hA, hp, hf]
          · simp [hget, hA, hp, hf]
        · simp [hget, hA, hp]
        · simp [hget, hA, hp]
    · rcases v with _ | pd
      · rcases a with _ | _
        · simp [hget, hA]
        · rcases hp : env.places (loc ++ (if pyTruthyStr city then ", " ++ city.getD "" else ""))
            with place | _ | msg
          · by_cases hf : place.place_id.isSome && is_important_location loc
            · simp [hget, hA, hp, hf]
            · simp [hget, hA, hp, hf]
          · simp [hget, hA, hp]
          · simp [hget, hA, hp]
      · simp [hget]
  · intro env mon gc now query limit
    unfold get_autocomplete_cached
    rcases hget : cacheGet gc.autocomplete now (gmaps_cache_key "autocomplete"
      [query, toString limit]) with _ | l
    · rcases hac : env.autocomplete query with msg | predictions
      · simp [hget, hac]
      · simp [hget, hac]
    · rcases l with _ | ⟨s, rest⟩
      · rcases hac : env.autocomplete query with msg | predictions
        · simp [hget, hac]
        · simp [hget, hac]
      · simp [hget]

/-- Collaborator whose text search finds nothing, for the negative-cache
run. -/
def missingPlaceEnv : GmapsEnv :=
  { api_key := "KEY"
    places := fun _ => PlacesOutcome.noResults
    placePhotos := fun _ => none
    autocomplete := fun _ => Except.error "unused" }

/-- C5: evaluation at the failing input.  The first lookup of a place
with no search results returns None and stores the negative entry under
the operation fingerprint with a 3600-second TTL; 1800 seconds later the
negative entry is still present and unexpired, yet the second lookup for
the same inputs performs a fresh external API call (and tracks a miss),
because the stored None fails the if cached_result: truthiness test and
is indistinguishable from a cache miss. -/
theorem C5_negative_cache_never_returned :
    (get_place_details_cached "2026-10-12" missingPlaceEnv emptyMonitor emptyGmapsCache 0
        "Atlantis Palace" none).result = none ∧
    cacheGet (get_place_details_cached "2026-10-12" missingPlaceEnv emptyMonitor emptyGmapsCache 0
        "Atlantis Palace" none).cache.placeDetails 1800
      (gmaps_cache_key "place_details" ["Atlantis Palace", ""]) = some none ∧
    (get_place_details_cached "2026-10-12" missingPlaceEnv
        (get_place_details_cached "2026-10-12" missingPlaceEnv emptyMonitor emptyGmapsCache 0
          "Atlantis Palace" none).monitor
        (get_place_details_cached "2026-10-12" missingPlaceEnv emptyMonitor emptyGmapsCache 0
          "Atlantis Palace" none).cache 1800 "Atlantis Palace" none).events =
      [GEvent.checkQuota true, GEvent.trackMiss, GEvent.apiCall ApiKind.placesSearch] := by
  decide

/-! ## generate_template_fallback (home/optimized_services.py 618-692) -/

/-- Static per-destination template data of generate_template_fallback. -/
structure DestData where
  attractions : List String
  food : List String
  transport : String
  tips : String

/-- The dest_data dictionary, in insertion order. -/
def dest_data : List (String × DestData) :=
  [("paris",
    { attractions := ["Eiffel Tower", "Louvre Museum", "Notre-Dame Cathedral",
        "Arc de Triomphe", "Sacré-Cœur Basilica"]
      food := ["French bistro", "Café de Flore", "Local boulangerie", "Seine-side restaurant"]
      transport := "Metro day pass (€7.50/day)"
      tips := "Many museums free first Sunday of month" }),
   ("london",
    { attractions := ["Big Ben", "Tower Bridge", "British Museum", "Hyde Park",
        "Buckingham Palace"]
      food := ["Traditional pub", "Borough Market", "Fish and chips shop", "Afternoon tea"]
      transport := "Oyster Card for Tube (£15/day)"
      tips := "Most museums are free entry" }),
   ("rome",
    { attractions := ["Colosseum", "Vatican City", "Trevi Fountain", "Roman Forum", "Pantheon"]
      food := ["Trattoria", "Gelato shop", "Roman pizzeria", "Osteria"]
      transport := "Roma Pass (€38.50/3 days)"
      tips := "Churches are free, avoid tourist traps near landmarks" })]

/-- First dictionary key whose lower-cased form occurs inside the
lower-cased destination (the for-k-in-dest_data loop with break). -/
def findDestKey (dest : String) : Option (String × DestData) :=
  dest_data.find? (fun kd => strContains (pyLower dest) (pyLower kd.1))

/-- Lines appended by one iteration of the for-day loop of
generate_template_fallback; the trailing "" reflects the closing
double newline of the daily-total append. -/
def fallback_day_lines (dest : String) (days : Nat) (daily_budget : ℚ)
    (attractions restaurants : List String) (day : Nat) : List String :=
  ["🗓️ Day " ++ toString day ++ ": " ++
     (if day = 1 then "Arrival & First Impressions"
      else if day = days then "Final Day & Departure"
      else "Exploring " ++ dest),
   "🏨 Accommodation: Budget hotel ($" ++ fmtUSD0 (daily_budget * (35 / 100)) ++ "/person)"] ++
  (if day ≤ attractions.length then ["📍 Visit: " ++ attractions.getD (day - 1) ""] else []) ++
  (if day ≤ restaurants.length then
    ["🍽️ Lunch: " ++ restaurants.getD ((day - 1) % restaurants.length) "" ++
      " ($" ++ fmtUSD0 (daily_budget * (15 / 100)) ++ "/person)"]
   else []) ++
  ["🚶 Evening: Local exploration",
   "💰 Daily total: $" ++ fmtUSD0 daily_budget ++ " per person",
   ""]

/-- generate_template_fallback, line by line: header, one block per day
of the for-loop over range(1, days + 1), then the transportation and
budget-tip footer; the final "" reflects the trailing newline. -/
def generate_template_fallback_lines (tr : TripRequest) : List String :=
  let dest := tr.destination
  let days := tr.duration
  let daily_budget : ℚ := tr.budget / (days : ℚ) / (tr.number_of_travelers : ℚ)
  let ctx :=
    match findDestKey dest with
    | some kd => (kd.2.attractions.take days, kd.2.food, kd.2.transport, kd.2.tips)
    | none =>
        (["Main attraction", "Cultural site", "Historic landmark", "Local market",
           "Scenic viewpoint"].take days,
         ["Local restaurant", "Traditional eatery", "Popular café", "Street food vendor"],
         "Research local transport options",
         "Look for free activities and local deals")
  ["🌟 " ++ dest ++ " Travel Plan", ""] ++
    ((List.range days).map
      (fun i => fallback_day_lines dest days daily_budget ctx.1 ctx.2.1 (i + 1))).flatten ++
    ["🚌 Transportation: " ++ ctx.2.2.1,
     "💡 Budget Tip: " ++ ctx.2.2.2,
     ""]

/-- generate_template_fallback as one string. -/
def generate_template_fallback (tr : TripRequest) : String :=
  joinLines (generate_template_fallback_lines tr)

/-- Day-block recognizer: a line of the plan that opens a day block,
i.e. starts with the day-header marker. -/
def isDayHeader (l : String) : Bool :=
  "🗓️ Day".data.isPrefixOf l.data

/-- Number of day blocks in a plan given as lines. -/
def countDayBlocks (lines : List String) : Nat :=
  (lines.filter isDayHeader).length

/-- Daily-total recognizer: a line carrying the per-person daily total. -/
def isDailyTotalLine (l : String) : Bool :=
  "💰 Daily total".data.isPrefixOf l.data

/-- Exact daily budget of a trip request, the quantity
budget / duration / travelers computed by both fallback generators. -/
def dailyBudgetOf (tr : TripRequest) : ℚ :=
  tr.budget / (tr.duration : ℚ) / (tr.number_of_travelers : ℚ)

/-- Each day block of generate_template_fallback contains exactly one
day-header line, whatever the per-day optional lines are: every other
line of the block starts with a different marker, which decides the
prefix comparison definitionally. -/
theorem filter_day_lines_length (dest : String) (days : Nat) (db : ℚ)
    (att rest : List String) (day : Nat) :
    ((fallback_day_lines dest days db att rest day).filter isDayHeader).length = 1 := by
  unfold fallback_day_lines
  by_cases h1 : day ≤ att.length <;> by_cases h2 : day ≤ rest.length <;>
    simp only [h1, h2, if_true, if_false, ite_true, ite_false] <;> rfl

/-- The flattened day blocks contribute one day header per day. -/
theorem length_filter_flatten_day_lines (dest : String) (days : Nat) (db : ℚ)
    (att rest : List String) :
    ∀ l : List Nat,
      (((l.map (fun i => fallback_day_lines dest days db att rest (i + 1))).flatten.filter
        isDayHeader).length) = l.length := by
  intro l
  induction l with
  | nil => simp
  | cons a as ih =>
      simp only [List.map_cons, List.flatten_cons, List.filter_append, List.length_append, ih,
        List.length_cons]
      rw [filter_day_lines_length]
      omega

/-- Within one day block the daily-total recognizer selects exactly the
canonical daily-total line. -/
theorem filter_day_lines_total (dest : String) (days : Nat) (db : ℚ)
    (att rest : List String) (day : Nat) :
    (fallback_day_lines dest days db att rest day).filter isDailyTotalLine =
      ["💰 Daily total: $" ++ fmtUSD0 db ++ " per person"] := by
  unfold fallback_day_lines
  by_cases h1 : day ≤ att.length <;> by_cases h2 : day ≤ rest.length <;>
    simp only [h1, h2, if_true, if_false, ite_true, ite_false] <;> rfl

/-- Any daily-total line inside a day block is the canonical one. -/
theorem mem_day_lines_daily_total (dest : String) (days : Nat) (db : ℚ)
    (att rest : List String) (day : Nat) (l : String)
    (hl : l ∈ fallback_day_lines dest days db att rest day)
    (ht : isDailyTotalLine l = true) :
    l = "💰 Daily total: $" ++ fmtUSD0 db ++ " per person" := by
  have hmem : l ∈ (fallback_day_lines dest days db att rest day).filter isDailyTotalLine :=
    List.mem_filter.mpr ⟨hl, ht⟩
  rw [filter_day_lines_total] at hmem
  simpa using hmem

/-- Day-block count of the assembled fallback plan: header and footer
contribute none, each day block exactly one. -/
theorem countDayBlocks_assembled (dest : String) (days : Nat) (db : ℚ)
    (att rest : List String) (t b : String) :
    countDayBlocks (["🌟 " ++ dest ++ " Travel Plan", ""] ++
      ((List.range days).map (fun i => fallback_day_lines dest days db att rest (i + 1))).flatten ++
      ["🚌 Transportation: " ++ t, "💡 Budget Tip: " ++ b, ""]) = days := by
  unfold countDayBlocks
  rw [List.filter_append, List.filter_append, List.length_append, List.length_append,
    length_filter_flatten_day_lines]
  have hA : (List.filter isDayHeader ["🌟 " ++ dest ++ " Travel Plan", ""]).length = 0 := rfl
  have hC : (List.filter isDayHeader
      ["🚌 Transportation: " ++ t, "💡 Budget Tip: " ++ b, ""]).length = 0 := rfl
  rw [hA, hC, List.length_range]
  omega

/-- Daily totals of the assembled fallback plan: every line recognized
as a daily total is the canonical daily-total line for db. -/
theorem dailyTotal_assembled (dest : String) (days : Nat) (db : ℚ)
    (att rest : List String) (t b l : String)
    (hl : l ∈ ["🌟 " ++ dest ++ " Travel Plan", ""] ++
      ((List.range days).map (fun i => fallback_day_lines dest days db att rest (i + 1))).flatten ++
      ["🚌 Transportation: " ++ t, "💡 Budget Tip: " ++ b, ""])
    (ht : isDailyTotalLine l = true) :
    l = "💰 Daily total: $" ++ fmtUSD0 db ++ " per person" := by
  rcases List.mem_append.mp hl with h | h
  · rcases List.mem_append.mp h with h | h
    · simp only [List.mem_cons, List.not_mem_nil, or_false] at h
      rcases h with rfl | rfl
      · exact Bool.noConfusion ht
      · exact Bool.noConfusion ht
    · obtain ⟨lls, hlls, hmem⟩ := List.mem_flatten.mp h
      obtain ⟨i, _, rfl⟩ := List.mem_map.mp hlls
      exact mem_day_lines_daily_total dest days db att rest (i + 1) l hmem ht
  · simp only [List.mem_cons, List.not_mem_nil, or_false] at h
    rcases h with rfl | rfl | rfl
    · exact Bool.noConfusion ht
    · exact Bool.noConfusion ht
    · exact Bool.noConfusion ht

/-- C6 counterexample: the fallback used by the cost-optimized AI
service, CostOptimizedAIService._generate_template_plan, emits a fixed
two-day skeleton: on the 3-day Paris specification its output has 2 day
blocks, not durationDays = 3. -/
theorem C6_template_plan_fixed_two_days :
    countDayBlocks (generate_template_plan_lines parisTrip) = 2 ∧
    parisTrip.duration = 3 := by
  exact ⟨rfl, rfl⟩

/-- C6 amended: both fallback generators are pure functions of the trip
specification (they are total functions of the TripRequest value alone,
so two invocations on equal inputs give identical output by
construction).  For durationDays ≥ 1, generate_template_fallback's
output contains exactly durationDays day blocks, while
_generate_template_plan's contains exactly 2 day blocks regardless of
duration; in both outputs every daily-total line carries the value
totalBudget / durationDays / travelerCount rounded to the nearest
integer, which is within 1/2 of the exact ratio. -/
theorem C6_fallback_day_blocks_and_totals (tr : TripRequest) (h : 1 ≤ tr.duration) :
    countDayBlocks (generate_template_fallback_lines tr) = tr.duration ∧
    (∀ l ∈ generate_template_fallback_lines tr, isDailyTotalLine l = true →
      l = "💰 Daily total: $" ++ fmtUSD0 (dailyBudgetOf tr) ++ " per person") ∧
    countDayBlocks (generate_template_plan_lines tr) = 2 ∧
    (∀ l ∈ generate_template_plan_lines tr, isDailyTotalLine l = true →
      l = "💰 Daily total: $" ++ fmtUSD0 (dailyBudgetOf tr) ++ " per person") ∧
    |dailyBudgetOf tr - (round (dailyBudgetOf tr) : ℚ)| ≤ 1 / 2 ∧
    fmtUSD0 (dailyBudgetOf tr) = toString (round (dailyBudgetOf tr)) := by
  refine ⟨?_, ?_, ?_, ?_, abs_sub_round (dailyBudgetOf tr), rfl⟩
  · unfold generate_template_fallback_lines
    rcases hk : findDestKey tr.destination with _ | kd <;>
      simp only [hk] <;> exact countDayBlocks_assembled ..
  · intro l hl ht
    unfold generate_template_fallback_lines at hl
    rcases hk : findDestKey tr.destination with _ | kd <;>
      simp only [hk] at hl <;> exact dailyTotal_assembled _ _ _ _ _ _ _ _ hl ht
  · rfl
  · intro l hl ht
    have hmem : l ∈ (generate_template_plan_lines tr).filter isDailyTotalLine :=
      List.mem_filter.mpr ⟨hl, ht⟩
    have hf : (generate_template_plan_lines tr).filter isDailyTotalLine =
        ["💰 Daily total: $" ++ fmtUSD0 (dailyBudgetOf tr) ++ " per person",
         "💰 Daily total: $" ++ fmtUSD0 (dailyBudgetOf tr) ++ " per person"] := rfl
    rw [hf] at hmem
    simp only [List.mem_cons, List.not_mem_nil, or_false] at hmem
    rcases hmem with rfl | rfl <;> rfl

/-- C6 witness: the 3-day Paris request satisfies the hypothesis and its
fallback plan has exactly 3 day blocks. -/
theorem C6_fallback_day_blocks_witness :
    1 ≤ parisTrip.duration ∧
    countDayBlocks (generate_template_fallback_lines parisTrip) = parisTrip.duration :=
  ⟨by decide, (C6_fallback_day_blocks_and_totals parisTrip (by decide)).1⟩

/-! ## extract_locations_from_text (home/optimized_services.py 694-724)

The function runs four Python regular expressions with re.IGNORECASE over
each line via re.findall and collects the first capture groups into a
set.  The embedding implements the relevant fragment of Python's regex
language — ordered alternation, greedy one-or-more with backtracking,
character classes, word boundaries, case-insensitive literals and one
capture group — as a small backtracking engine in continuation-passing
style, and spells each source pattern as a term of that language.
Matching is ASCII-case-insensitive (the é of the Café literal only
matches itself; the claim's inputs are ASCII). -/

/-- ASCII letter test, the [a-zA-Z] fragment of the classes. -/
def isAsciiLetter (c : Char) : Bool :=
  ('A' ≤ c && c ≤ 'Z') || ('a' ≤ c && c ≤ 'z')

/-- Python regex whitespace class backslash-s. -/
def isWsChar (c : Char) : Bool :=
  c == ' ' || c == '\t' || c == '\n' || c == '\r' || c == '\x0b' || c == '\x0c'

/-- Python regex word character, used by the word-boundary assertion. -/
def isWordChar (c : Char) : Bool :=
  isAsciiLetter c || ('0' ≤ c && c ≤ '9') || c == '_'

/-- Case-insensitive character comparison under re.IGNORECASE. -/
def charEqIC (c d : Char) : Bool :=
  c.toLower == d.toLower

/-- Character classes appearing in the four patterns: [A-Z] (which under
IGNORECASE also matches lowercase), [a-zA-Z\s-], [a-zA-Z\s&'], and \s. -/
inductive CClass where
  | upper
  | bodyDash
  | bodyAmpApos
  | ws
  deriving DecidableEq

/-- Membership in a character class. -/
def CClass.matches : CClass → Char → Bool
  | CClass.upper, c => isAsciiLetter c
  | CClass.bodyDash, c => isAsciiLetter c || isWsChar c || c == '-'
  | CClass.bodyAmpApos, c => isAsciiLetter c || isWsChar c || c == '&' || c == '\''
  | CClass.ws, c => isWsChar c

/-- Regex fragment used by the extraction patterns. -/
inductive Re where
  | eps
  | never
  | lit (cs : List Char)
  | cls (k : CClass)
  | seq (a b : Re)
  | alt (a b : Re)
  | plus (r : Re)
  | wordB
  | grp (r : Re)

/-- Answer of a successful match attempt: the capture-group text, the
last consumed character (for word boundaries when scanning resumes), and
the remaining input. -/
abbrev MatchAns := Option (List Char) × Option Char × List Char

/-- Consume a literal case-insensitively, tracking the last consumed
subject character. -/
def stripPrefixIC : List Char → Option Char → List Char → Option (Option Char × List Char)
  | [], prev, s => some (prev, s)
  | _ :: _, _, [] => none
  | c :: cs, _, d :: ds => if charEqIC c d then stripPrefixIC cs (some d) ds else none

/-- Backtracking matcher in continuation-passing style, mirroring
CPython's regex semantics on this fragment: alternation prefers the left
branch, plus is greedy and gives back one iteration at a time, the
capture group records the consumed subject text verbatim.  The fuel
strictly exceeds the depth of any explored match tree on the concrete
inputs below, so the fuel-out branch is never taken. -/
def matchRe : Nat → Re → Option Char → List Char → Option (List Char) →
    (Option Char → List Char → Option (List Char) → Option MatchAns) → Option MatchAns
  | 0, _, _, _, _, _ => none
  | _ + 1, Re.eps, prev, s, cap, k => k prev s cap
  | _ + 1, Re.never, _, _, _, _ => none
  | _ + 1, Re.lit cs, prev, s, cap, k =>
      match stripPrefixIC cs prev s with
      | some (prev', rest) => k prev' rest cap
      | none => none
  | _ + 1, Re.cls kc, _, s, cap, k =>
      match s with
      | [] => none
      | c :: rest => if kc.matches c then k (some c) rest cap else none
  | fuel + 1, Re.seq a b, prev, s, cap, k =>
      matchRe fuel a prev s cap (fun p' s' c' => matchRe fuel b p' s' c' k)
  | fuel + 1, Re.alt a b, prev, s, cap, k =>
      match matchRe fuel a prev s cap k with
      | some ans => some ans
      | none => matchRe fuel b prev s cap k
  | fuel + 1, Re.plus r, prev, s, cap, k =>
      matchRe fuel r prev s cap (fun p' s' c' =>
        match matchRe fuel (Re.plus r) p' s' c' k with
        | some ans => some ans
        | none => k p' s' c')
  | _ + 1, Re.wordB, prev, s, cap, k =>
      let before := match prev with | some c => isWordChar c | none => false
      let after := match s with | c :: _ => isWordChar c | [] => false
      if before != after then k prev s cap else none
  | fuel + 1, Re.grp r, prev, s, cap, k =>
      matchRe fuel r prev s cap (fun p' s' _ =>
        k p' s' (some (s.take (s.length - s'.length))))

/-- Attempt a match anchored at the current position. -/
def tryMatchAt (pat : Re) (prev : Option Char) (s : List Char) : Option MatchAns :=
  matchRe 10000 pat prev s none (fun p' s' c' => some (c', p', s'))

/-- re.findall scanning: try the pattern at each position left to right;
on a match record the capture group and resume after the match (after
one character for a zero-width match, which these patterns never
produce); otherwise advance one character. -/
def findallAux (pat : Re) : Nat → Option Char → List Char → List (List Char)
  | 0, _, _ => []
  | fuel + 1, prev, s =>
      match tryMatchAt pat prev s with
      | some (cap, prevEnd, rest) =>
          if rest.length < s.length then
            cap.getD [] :: findallAux pat fuel prevEnd rest
          else
            match s with
            | [] => [cap.getD []]
            | c :: rest' => cap.getD [] :: findallAux pat fuel (some c) rest'
      | none =>
          match s with
          | [] => []
          | c :: rest => findallAux pat fuel (some c) rest

/-- re.findall with IGNORECASE over one line. -/
def findallIC (pat : Re) (line : List Char) : List (List Char) :=
  findallAux pat (line.length + 1) none line

/-- Literal pattern from a string. -/
def reStr (s : String) : Re := Re.lit s.data

/-- Ordered alternation of a pattern list. -/
def altOf : List Re → Re
  | [] => Re.never
  | [r] => r
  | r :: rs => Re.alt r (altOf rs)

/-- Sequencing of a pattern list. -/
def seqOf : List Re → Re
  | [] => Re.eps
  | [r] => r
  | r :: rs => Re.seq r (seqOf rs)

/-- The suffix alternation (?:Tower|Museum|...|Hotel) shared by the
first two patterns, in source order. -/
def suffixAlt : Re :=
  altOf (["Tower", "Museum", "Palace", "Temple", "Church", "Cathedral", "Market", "Beach",
    "Square", "Bridge", "Garden", "Gallery", "Stadium", "Airport", "Station", "Basilica",
    "Arc", "Castle", "Restaurant", "Café", "Hotel"].map reStr)

/-- The capture group ([A-Z][a-zA-Z\s-]+(?:...suffixes)). -/
def capturedName : Re :=
  Re.grp (seqOf [Re.cls CClass.upper, Re.plus (Re.cls CClass.bodyDash), suffixAlt])

/-- Source pattern 1:
(?:visit|go to|explore|see|at|near)\s+([A-Z][a-zA-Z\s-]+(?:...)). -/
def pattern1 : Re :=
  seqOf [altOf (["visit", "go to", "explore", "see", "at", "near"].map reStr),
    Re.plus (Re.cls CClass.ws), capturedName]

/-- Source pattern 2: word-boundary ([A-Z][a-zA-Z\s-]+(?:...)) word-boundary. -/
def pattern2 : Re :=
  seqOf [Re.wordB, capturedName, Re.wordB]

/-- Source pattern 3: the famous-landmark alternation between word
boundaries. -/
def pattern3 : Re :=
  seqOf [Re.wordB,
    Re.grp (altOf (["Eiffel Tower", "Louvre Museum", "Notre-Dame Cathedral", "Arc de Triomphe",
      "Sacré-Cœur Basilica", "Times Square", "Central Park", "Big Ben", "London Eye",
      "Statue of Liberty", "Golden Gate Bridge", "Colosseum", "Vatican City", "Trevi Fountain",
      "Roman Forum", "Pantheon"].map reStr)),
    Re.wordB]

/-- Source pattern 4: word-boundary ([A-Z][a-zA-Z\s&']+(?:Restaurant|
Café|Hotel|Inn|Lodge|Bistro|Brasserie|Tavern)) word-boundary. -/
def pattern4 : Re :=
  seqOf [Re.wordB,
    Re.grp (seqOf [Re.cls CClass.upper, Re.plus (Re.cls CClass.bodyAmpApos),
      altOf (["Restaurant", "Café", "Hotel", "Inn", "Lodge", "Bistro", "Brasserie",
        "Tavern"].map reStr)]),
    Re.wordB]

/-- The patterns list of extract_locations_from_text, in order. -/
def extract_patterns : List Re := [pattern1, pattern2, pattern3, pattern4]

/-- Python str.strip() at the character-list level. -/
def stripChars (l : List Char) : List Char :=
  ((l.dropWhile Char.isWhitespace).reverse.dropWhile Char.isWhitespace).reverse

/-- re.sub(r'^[^a-zA-Z]+', '', match.strip()): strip, then drop the
leading run of non-ASCII-letter characters. -/
def cleanMatch (l : List Char) : List Char :=
  (stripChars l).dropWhile (fun c => !(isAsciiLetter c))

/-- text.split('\n') at the character-list level. -/
def splitLinesAux : List Char → List Char → List (List Char)
  | [], acc => [acc.reverse]
  | c :: rest, acc =>
      if c == '\n' then acc.reverse :: splitLinesAux rest []
      else splitLinesAux rest (c :: acc)

/-- Split a text into its lines. -/
def splitLines (l : List Char) : List (List Char) :=
  splitLinesAux l []

/-- extract_locations_from_text: per stripped non-empty line, run the
four patterns with findall; keep a capture when its stripped length
exceeds 3 and, after removing leading non-letters, it is non-empty with
length above 3; collect into a set (Python returns list(locations),
whose order is the arbitrary set order, so the result is modelled as the
set itself). -/
def extract_locations_from_text (text : String) : Finset String :=
  (splitLines text.data).foldl (fun acc line0 =>
    let line := stripChars line0
    if line.isEmpty then acc
    else
      extract_patterns.foldl (fun acc2 pat =>
        (findallIC pat line).foldl (fun acc3 mtch =>
          if 3 < (stripChars mtch).length then
            let clean := cleanMatch mtch
            if !clean.isEmpty && 3 < clean.length then insert (String.mk clean) acc3 else acc3
          else acc3) acc2) acc) ∅

/-- The input sentence fixed by the claim. -/
def c8Input : String := "Visit Eiffel Tower and explore Louvre Museum today"

/-- C8 counterexample: on the claim's input the extraction does not
yield the two-element set: the greedy body classes also capture the
spanning phrases "Visit Eiffel Tower and explore Louvre Museum" (pattern
2) and "Eiffel Tower and explore Louvre Museum" (pattern 1). -/
theorem C8_extraction_not_two_element_set :
    extract_locations_from_text c8Input ≠
      ({"Eiffel Tower", "Louvre Museum"} : Finset String) := by
  decide

/-- C8 amended: the extraction yields a four-element strict superset of
{Eiffel Tower, Louvre Museum} containing the two over-captured spanning
phrases; captures keep the input's casing and de-duplication is
case-sensitive, so case permutations change the result: the all-lowercase
permutation of the input yields the lowercase counterparts, a different
set. -/
theorem C8_extraction_superset_case_sensitive :
    extract_locations_from_text c8Input =
      ({"Visit Eiffel Tower and explore Louvre Museum",
        "Eiffel Tower and explore Louvre Museum",
        "Eiffel Tower", "Louvre Museum"} : Finset String) ∧
    "Eiffel Tower" ∈ extract_locations_from_text c8Input ∧
    "Louvre Museum" ∈ extract_locations_from_text c8Input ∧
    extract_locations_from_text (pyLower c8Input) ≠ extract_locations_from_text c8Input ∧
    extract_locations_from_text (pyLower c8Input) =
      ({"visit eiffel tower and explore louvre museum",
        "eiffel tower and explore louvre museum",
        "eiffel tower", "louvre museum"} : Finset String) := by
  exact ⟨by decide, by decide, by decide, by decide, by decide⟩
